import Mathlib

/-!
Verification of the `cervine` clone-on-write container (`src/lib.rs`).

The Rust type `Cow<'a, T, R>` is a two-variant union: `Owned(T)` or
`Borrowed(&'a R)`. We embed it shallowly as an inductive `Cow T R` whose
`Borrowed` constructor carries the referenced `R` value; term equality of
that value stands for reference identity (a copied reference is the same
term, a freshly constructed owned value is a different expression).

Rust trait capabilities on the type parameters are passed as explicit
function arguments:
  - `T: Borrow<R>`        becomes `borrow : T → R`
  - `T: From<&'a R>`      becomes `from_ref : R → T`
  - `T: TryFrom<&'a R>`   becomes `try_from_ref : R → Except E T`
  - `T: Clone`            becomes `tclone : T → T`
  - `T: Default`          becomes `tdefault : T`
  - `R: PartialEq`        becomes `req : R → R → Bool`
  - `R: Hash`             becomes `rhash : R → Nat → Nat` (hasher state is a `Nat`)
  - `R: serde::Serialize` becomes `rser : R → List Nat` (wire bytes)
  - `T: de::Deserialize`  becomes `tdeser : List Nat → Except E T`

Methods taking `&mut self` are modelled as state transformers returning the
container state after the call; the `&mut T` they hand out in Rust points at
the payload of exactly that state. Methods taking `&self` are pure functions
of the container.
-/

namespace Cervine

/-- The `Cow` enum from `src/lib.rs`:
`pub enum Cow<'a, T, R: ?Sized> { Owned(T), Borrowed(&'a R) }`. -/
inductive Cow (T R : Type) where
  | Owned : T → Cow T R
  | Borrowed : R → Cow T R
deriving DecidableEq, Repr

variable {T R E : Type}

/-- `Cow::is_borrowed`: `matches!(self, Cow::Borrowed(_))`. -/
def Cow.is_borrowed : Cow T R → Bool
  | .Borrowed _ => true
  | .Owned _ => false

/-- `Cow::is_owned`: `matches!(self, Cow::Owned(_))`. -/
def Cow.is_owned : Cow T R → Bool
  | .Owned _ => true
  | .Borrowed _ => false

/-- `Cow::into_owned` (bound `T: From<&'a R>`):
`match self { Owned(t) => t, Borrowed(r) => r.into() }`. -/
def Cow.into_owned (from_ref : R → T) : Cow T R → T
  | .Owned t => t
  | .Borrowed r => from_ref r

/-- `Cow::into_owned`, additionally counting how many reference→owned
conversions (`r.into()` calls) the invocation performs: the `Owned` branch
returns the payload with no conversion, the `Borrowed` branch converts once. -/
def Cow.into_owned_count (from_ref : R → T) : Cow T R → T × Nat
  | .Owned t => (t, 0)
  | .Borrowed r => (from_ref r, 1)

/-- `Cow::make_mut` (bound `T: From<&'a R>`), as a state transformer:
the result is the container state after the call; the returned `&mut T`
points at that state's payload. `Owned(t)` is left as is;
`Borrowed(r)` executes `*self = Cow::Owned((*r).into())`. -/
def Cow.make_mut (from_ref : R → T) : Cow T R → Cow T R
  | .Owned t => .Owned t
  | .Borrowed r => .Owned (from_ref r)

/-- `Cow::make_mut`, additionally counting how many reference→owned
conversions (`(*r).into()` calls) the invocation performs. -/
def Cow.make_mut_count (from_ref : R → T) : Cow T R → Cow T R × Nat
  | .Owned t => (.Owned t, 0)
  | .Borrowed r => (.Owned (from_ref r), 1)

/-- `Cow::try_into_owned` (bound `T: TryFrom<&'a R>`):
`match self { Owned(t) => Ok(t), Borrowed(r) => r.try_into() }`. -/
def Cow.try_into_owned (try_from_ref : R → Except E T) : Cow T R → Except E T
  | .Owned t => .ok t
  | .Borrowed r => try_from_ref r

/-- `Cow::try_make_mut` (bound `T: TryFrom<&'a R>`), as a state transformer.
The first component is the container state after the call; the second is
`none` when the call returned `Ok(&mut payload-of-that-state)` and `some e`
when it returned `Err(e)`. In the source, `*self = Cow::Owned((*r).try_into()?)`
propagates the error before any assignment, so on failure the container is
left as `Borrowed(r)`. -/
def Cow.try_make_mut (try_from_ref : R → Except E T) :
    Cow T R → Cow T R × Option E
  | .Owned t => (.Owned t, none)
  | .Borrowed r =>
    match try_from_ref r with
    | .ok t => (.Owned t, none)
    | .error e => (.Borrowed r, some e)

/-- `impl AsRef<R> for Cow`:
`match self { Owned(t) => t.borrow(), Borrowed(r) => r }`. -/
def Cow.as_ref (borrow : T → R) : Cow T R → R
  | .Owned t => borrow t
  | .Borrowed r => r

/-- `impl Deref for Cow` (`type Target = R`): same body as `as_ref`. -/
def Cow.deref (borrow : T → R) : Cow T R → R
  | .Owned t => borrow t
  | .Borrowed r => r

/-- `impl Borrow<R> for Cow`: same body as `as_ref`. -/
def Cow.borrow_r (borrow : T → R) : Cow T R → R
  | .Owned t => borrow t
  | .Borrowed r => r

/-- `impl Clone for Cow` (bound `T: Clone`):
`Owned(t) => Self::Owned(t.clone()), Borrowed(r) => Self::Borrowed(r)`. -/
def Cow.clone (tclone : T → T) : Cow T R → Cow T R
  | .Owned t => .Owned (tclone t)
  | .Borrowed r => .Borrowed r

/-- `impl Default for Cow` (bound `T: Default`): `Cow::Owned(T::default())`. -/
def Cow.default_cow (tdefault : T) : Cow T R := .Owned tdefault

/-- `impl PartialEq<R> for Cow` (cross-type equality against a bare `&R`):
`self.as_ref() == other`. -/
def Cow.eq_r (borrow : T → R) (req : R → R → Bool) (c : Cow T R) (other : R) :
    Bool :=
  req (c.as_ref borrow) other

/-- `impl PartialEq for Cow`: `self.as_ref() == other.as_ref()`. -/
def Cow.eq (borrow : T → R) (req : R → R → Bool) (a b : Cow T R) : Bool :=
  req (a.as_ref borrow) (b.as_ref borrow)

/-- `impl Hash for Cow`: `self.as_ref().hash(state)`; the hasher state is
modelled as a `Nat` threaded through `rhash`. -/
def Cow.hash (borrow : T → R) (rhash : R → Nat → Nat) (c : Cow T R)
    (state : Nat) : Nat :=
  rhash (c.as_ref borrow) state

/-- `impl ser::Serialize for Cow`: `self.as_ref().serialize(serializer)`;
the wire output is modelled as the `List Nat` produced by `R`'s serializer. -/
def Cow.serialize (borrow : T → R) (rser : R → List Nat) (c : Cow T R) :
    List Nat :=
  rser (c.as_ref borrow)

/-- `impl de::Deserialize for Cow` (`deserialize`):
`T::deserialize(deserializer).map(Cow::Owned)`. -/
def Cow.deserialize (tdeser : List Nat → Except E T) (bytes : List Nat) :
    Except E (Cow T R) :=
  (tdeser bytes).map Cow.Owned

/-- C1: Equality ignores the variant. For a value `v` of the borrowed-view
type, a container `Owned t` whose projected view equals `v` (both ways, as
`R`'s `PartialEq` contract requires symmetry) and a container `Borrowed v`
compare equal to each other under `PartialEq for Cow`, and each compares
equal to `v` directly under the cross-type `PartialEq<R>`, whenever `v`
equals itself under `R`'s equality. -/
theorem Cow.eq_ignores_variant (borrow : T → R) (req : R → R → Bool)
    (t : T) (v : R)
    (hview : req (borrow t) v = true) (hview' : req v (borrow t) = true)
    (hrefl : req v v = true) :
    Cow.eq borrow req (.Owned t) (.Borrowed v) = true ∧
    Cow.eq borrow req (.Borrowed v) (.Owned t) = true ∧
    Cow.eq_r borrow req (.Owned t) v = true ∧
    Cow.eq_r borrow req (.Borrowed v) v = true := by
  refine ⟨?_, ?_, ?_, ?_⟩ <;>
    simp only [Cow.eq, Cow.eq_r, Cow.as_ref] <;>
    assumption

/-- C1 witness: the hypotheses of `Cow.eq_ignores_variant` hold at
`T = R = Nat`, `borrow = id`, `req` = boolean equality, `t = v = 3`. -/
theorem Cow.eq_ignores_variant_witness :
    Cow.eq id (fun a b => a == b) (Cow.Owned 3 : Cow Nat Nat) (.Borrowed 3)
      = true ∧
    Cow.eq id (fun a b => a == b) (Cow.Borrowed 3 : Cow Nat Nat) (.Owned 3)
      = true ∧
    Cow.eq_r id (fun a b => a == b) (Cow.Owned 3 : Cow Nat Nat) 3 = true ∧
    Cow.eq_r id (fun a b => a == b) (Cow.Borrowed 3 : Cow Nat Nat) 3 = true :=
  Cow.eq_ignores_variant id (fun a b => a == b) 3 3
    (by decide) (by decide) (by decide)

/-- C2: Failed fallible in-place promotion is atomic. If the container is
`Borrowed r` and the conversion fails with `e`, then `try_make_mut` returns
`Err e` and leaves the container exactly as `Borrowed r`: `is_borrowed` is
still true and `as_ref` still yields the same reference. -/
theorem Cow.try_make_mut_error_atomic (try_from_ref : R → Except E T)
    (borrow : T → R) (r : R) (e : E)
    (h : try_from_ref r = .error e) :
    Cow.try_make_mut try_from_ref (.Borrowed r) = (.Borrowed r, some e) ∧
    (Cow.try_make_mut try_from_ref (Cow.Borrowed r : Cow T R)).1.is_borrowed
      = true ∧
    (Cow.try_make_mut try_from_ref (Cow.Borrowed r : Cow T R)).1.as_ref borrow
      = (Cow.Borrowed r : Cow T R).as_ref borrow := by
  have h1 : Cow.try_make_mut try_from_ref (Cow.Borrowed r : Cow T R)
      = (.Borrowed r, some e) := by
    simp only [Cow.try_make_mut, h]
  exact ⟨h1, by rw [h1]; rfl, by rw [h1]⟩

/-- C2 witness: the hypothesis of `Cow.try_make_mut_error_atomic` holds at
`T = R = Nat`, `E = Unit`, with an always-failing conversion, at `r = 7`. -/
theorem Cow.try_make_mut_error_atomic_witness :
    Cow.try_make_mut (fun _ : Nat => (Except.error () : Except Unit Nat))
      (.Borrowed 7) = (.Borrowed 7, some ()) ∧
    (Cow.try_make_mut (fun _ : Nat => (Except.error () : Except Unit Nat))
      (Cow.Borrowed 7 : Cow Nat Nat)).1.is_borrowed = true ∧
    (Cow.try_make_mut (fun _ : Nat => (Except.error () : Except Unit Nat))
      (Cow.Borrowed 7 : Cow Nat Nat)).1.as_ref id
      = (Cow.Borrowed 7 : Cow Nat Nat).as_ref id :=
  Cow.try_make_mut_error_atomic _ id 7 () rfl

/-- C3: `into_owned` returns the stored payload itself on the `Owned`
variant (a move, with zero reference→owned conversions performed), and on
`Borrowed v` returns exactly `from_ref v`, the owned value built by the
infallible conversion — which is equal to `v` under the underlying equality
whenever the conversion capability is value-preserving at `v`. -/
theorem Cow.into_owned_spec (from_ref : R → T) (borrow : T → R)
    (req : R → R → Bool) (t : T) (v : R)
    (hlaw : req (borrow (from_ref v)) v = true) :
    Cow.into_owned from_ref (.Owned t) = t ∧
    Cow.into_owned_count from_ref (Cow.Owned t : Cow T R) = (t, 0) ∧
    Cow.into_owned from_ref (.Borrowed v) = from_ref v ∧
    Cow.into_owned_count from_ref (Cow.Borrowed v : Cow T R)
      = (from_ref v, 1) ∧
    req (borrow (Cow.into_owned from_ref (Cow.Borrowed v : Cow T R))) v
      = true := by
  exact ⟨rfl, rfl, rfl, rfl, hlaw⟩

/-- C3 witness: the hypothesis of `Cow.into_owned_spec` holds at
`T = R = Nat`, `from_ref = id`, `borrow = id`, `req` = boolean equality,
`t = 4`, `v = 9`. -/
theorem Cow.into_owned_spec_witness :
    Cow.into_owned id (Cow.Owned 4 : Cow Nat Nat) = 4 ∧
    Cow.into_owned_count id (Cow.Owned 4 : Cow Nat Nat) = (4, 0) ∧
    Cow.into_owned id (Cow.Borrowed 9 : Cow Nat Nat) = 9 ∧
    Cow.into_owned_count id (Cow.Borrowed 9 : Cow Nat Nat) = (9, 1) ∧
    (fun a b : Nat => a == b)
      (id (Cow.into_owned id (Cow.Borrowed 9 : Cow Nat Nat))) 9 = true :=
  Cow.into_owned_spec id id (fun a b => a == b) 4 9 (by decide)

/-- C4: `make_mut` promotes at most once. On `Owned t` it is a pass-through
(zero conversions, state unchanged, the returned `&mut T` is the existing
payload); on `Borrowed r` it replaces the state with `Owned (from_ref r)`
(exactly one conversion) and returns a mutable reference into that payload;
after any call the container is `Owned`, so every subsequent call performs
zero further conversions. -/
theorem Cow.make_mut_promotes_at_most_once (from_ref : R → T) (t : T)
    (r : R) :
    Cow.make_mut_count from_ref (Cow.Owned t : Cow T R) = (.Owned t, 0) ∧
    Cow.make_mut_count from_ref (Cow.Borrowed r : Cow T R)
      = (.Owned (from_ref r), 1) ∧
    (∀ c : Cow T R,
      Cow.make_mut_count from_ref c = (Cow.make_mut from_ref c,
        if c.is_borrowed then 1 else 0) ∧
      (Cow.make_mut from_ref c).is_owned = true ∧
      (Cow.make_mut_count from_ref (Cow.make_mut from_ref c)).2 = 0 ∧
      Cow.make_mut from_ref (Cow.make_mut from_ref c)
        = Cow.make_mut from_ref c) := by
  refine ⟨rfl, rfl, fun c => ?_⟩
  cases c <;> exact ⟨rfl, rfl, rfl, rfl⟩

/-- C5: `try_into_owned` returns `Ok` with the stored payload on every
`Owned` container, and on `Borrowed r` returns exactly the result of the
fallible conversion — so it errors if and only if the container is
`Borrowed` and the conversion fails, and the error is the conversion's own
error value, unmodified and not retried. -/
theorem Cow.try_into_owned_spec (try_from_ref : R → Except E T) (t : T)
    (r : R) :
    Cow.try_into_owned try_from_ref (Cow.Owned t : Cow T R) = .ok t ∧
    Cow.try_into_owned try_from_ref (Cow.Borrowed r : Cow T R)
      = try_from_ref r ∧
    (∀ c : Cow T R, ∀ e : E,
      (Cow.try_into_owned try_from_ref c = .error e ↔
        ∃ r0, c = .Borrowed r0 ∧ try_from_ref r0 = .error e)) := by
  refine ⟨rfl, rfl, fun c e => ?_⟩
  cases c with
  | Owned t0 =>
    simp only [Cow.try_into_owned]
    constructor
    · intro h; cases h
    · rintro ⟨r0, h, _⟩; cases h
  | Borrowed r0 =>
    simp only [Cow.try_into_owned]
    constructor
    · intro h; exact ⟨r0, rfl, h⟩
    · rintro ⟨r1, h, he⟩
      cases h
      exact he

/-- C6: Hashing is consistent with equality regardless of variant. Both
sides hash exactly their projected view, so whenever `R`'s own hash respects
`R`'s equality (the standard `Hash`/`Eq` contract), any two containers that
are equal under `PartialEq for Cow` — in any mix of variants — produce
identical results from the same hasher state. -/
theorem Cow.hash_eq_consistent (borrow : T → R) (req : R → R → Bool)
    (rhash : R → Nat → Nat)
    (hcompat : ∀ x y : R, req x y = true → ∀ s, rhash x s = rhash y s)
    (a b : Cow T R) (heq : Cow.eq borrow req a b = true) (s : Nat) :
    Cow.hash borrow rhash a s = Cow.hash borrow rhash b s := by
  simp only [Cow.hash]
  exact hcompat _ _ heq s

/-- C6 witness: the hypotheses of `Cow.hash_eq_consistent` hold at
`T = R = Nat`, `borrow = id`, `req` = boolean equality,
`rhash x s = x + s`, for `a = Owned 3`, `b = Borrowed 3`, state `10`. -/
theorem Cow.hash_eq_consistent_witness :
    Cow.hash id (fun x s => x + s) (Cow.Owned 3 : Cow Nat Nat) 10 =
    Cow.hash id (fun x s => x + s) (.Borrowed 3) 10 :=
  Cow.hash_eq_consistent id (fun a b => a == b) (fun x s => x + s)
    (fun x y h s => by
      have hx : x = y := by simpa using h
      rw [hx])
    (.Owned 3) (.Borrowed 3) (by decide) 10

/-- C7: Cloning never promotes. `clone` on `Borrowed r` yields the very same
`Borrowed r` (same reference, still the borrowed variant, no owned copy);
`clone` on `Owned t` yields `Owned (tclone t)`, an owned container holding a
clone of the payload. In particular the variant is always preserved. -/
theorem Cow.clone_does_not_promote (tclone : T → T) (t : T) (r : R) :
    Cow.clone tclone (Cow.Borrowed r : Cow T R) = .Borrowed r ∧
    (Cow.clone tclone (Cow.Borrowed r : Cow T R)).is_borrowed = true ∧
    Cow.clone tclone (Cow.Owned t : Cow T R) = .Owned (tclone t) ∧
    (∀ c : Cow T R, (Cow.clone tclone c).is_borrowed = c.is_borrowed) := by
  refine ⟨rfl, rfl, rfl, fun c => ?_⟩
  cases c <;> rfl

/-- C8: Serialization round-trip. Serializing a container writes exactly the
serialized form of its projected view, with no variant tag or envelope; and
whenever the `T`/`R` serde capabilities round-trip (deserializing `R`'s wire
form of `v` yields a `T` whose borrowed view equals `v`), deserializing that
output yields an `Owned` container whose projected view equals the original
container's projected view, for either source variant. -/
theorem Cow.serialize_round_trip (borrow : T → R) (rser : R → List Nat)
    (tdeser : List Nat → Except E T) (req : R → R → Bool)
    (hround : ∀ v : R, ∃ t : T, tdeser (rser v) = .ok t ∧
      req (borrow t) v = true)
    (c : Cow T R) :
    Cow.serialize borrow rser c = rser (c.as_ref borrow) ∧
    ∃ t : T,
      (Cow.deserialize tdeser (Cow.serialize borrow rser c)
        : Except E (Cow T R)) = .ok (Cow.Owned t) ∧
      (Cow.Owned t : Cow T R).is_owned = true ∧
      req ((Cow.Owned t : Cow T R).as_ref borrow) (c.as_ref borrow)
        = true := by
  refine ⟨rfl, ?_⟩
  obtain ⟨t, hdes, hview⟩ := hround (c.as_ref borrow)
  refine ⟨t, ?_, rfl, hview⟩
  simp only [Cow.deserialize, Cow.serialize, hdes, Except.map]

/-- C8 witness: the hypothesis of `Cow.serialize_round_trip` holds at
`T = R = Nat`, `borrow = id`, `rser v = [v]`, `tdeser` reading back a
singleton list, `req` = boolean equality, at `c = Borrowed 5`. -/
theorem Cow.serialize_round_trip_witness :
    Cow.serialize id (fun v => [v]) (Cow.Borrowed 5 : Cow Nat Nat)
      = (fun v : Nat => [v]) ((Cow.Borrowed 5 : Cow Nat Nat).as_ref id) ∧
    ∃ t : Nat,
      (Cow.deserialize
        (fun l : List Nat => match l with
          | [v] => (Except.ok v : Except Unit Nat)
          | _ => Except.error ())
        (Cow.serialize id (fun v => [v]) (Cow.Borrowed 5 : Cow Nat Nat))
        : Except Unit (Cow Nat Nat)) = .ok (Cow.Owned t) ∧
      (Cow.Owned t : Cow Nat Nat).is_owned = true ∧
      (fun a b : Nat => a == b) ((Cow.Owned t : Cow Nat Nat).as_ref id)
        ((Cow.Borrowed 5 : Cow Nat Nat).as_ref id) = true :=
  Cow.serialize_round_trip id (fun v => [v])
    (fun l => match l with
      | [v] => (Except.ok v : Except Unit Nat)
      | _ => Except.error ())
    (fun a b => a == b)
    (fun v => ⟨v, rfl, by simp⟩)
    (.Borrowed 5)

/-- C9: Default construction always yields the `Owned` variant holding the
owned type's own default value: `default()` is `Cow::Owned(T::default())`,
so `is_owned` is true and the payload is `T`'s default. -/
theorem Cow.default_is_owned (tdefault : T) :
    (Cow.default_cow tdefault : Cow T R).is_owned = true ∧
    (Cow.default_cow tdefault : Cow T R) = .Owned tdefault :=
  ⟨rfl, rfl⟩

/-- C10: The three read-only projection paths coincide. For every container,
`AsRef::as_ref`, `Deref::deref` and `Borrow::borrow` return the identical
reference: the borrow of the owned payload on `Owned t`, and the held
reference itself on `Borrowed r`. All three take the container by shared
reference, embedded here as pure functions of the container, so none of them
changes the variant. -/
theorem Cow.projection_paths_coincide (borrow : T → R) (t : T) (r : R) :
    (∀ c : Cow T R, c.as_ref borrow = c.deref borrow ∧
      c.deref borrow = c.borrow_r borrow) ∧
    (Cow.Owned t : Cow T R).as_ref borrow = borrow t ∧
    (Cow.Borrowed r : Cow T R).as_ref borrow = r := by
  refine ⟨fun c => ?_, rfl, rfl⟩
  cases c <;> exact ⟨rfl, rfl⟩

end Cervine
